import Mathlib

/-!
Verification development for the asyncio protocol engine of the qPython
client (files qpython/qaioconnection.py, qpython/qaioreader.py,
qpython/qaiowriter.py).  The Python code is shallowly embedded: each
method becomes a Lean function on an explicit connection state, I/O is
represented by an event trace, and the scripted peer / stream contents
are explicit parameters.  Machine bytes are natural numbers; Python
integers are Int where signedness or negativity matters.
-/

namespace QPython

/-- Byte sequences (Python bytes objects) as lists of naturals. -/
abbrev Bytes := List Nat

/-- Declared endianness of a message, set from byte 0 of the header. -/
inductive Endianness
  | little
  | big
deriving DecidableEq

/-- Exceptions raised by the embedded code paths.  The first four mirror
the qPython exception classes (QConnectionException,
QAuthenticationException, QWriterException, QReaderException); typeError
models Python's TypeError, and osError stands for whatever
asyncio.open_connection raises when transport establishment fails. -/
inductive PyErr
  | qConnectionException (msg : String)
  | qAuthenticationException (msg : String)
  | qWriterException (msg : String)
  | qReaderException (msg : String)
  | typeError (msg : String)
  | osError
deriving DecidableEq

/-- An asyncio stream handle (reader/writer pair endpoint).  The only
observable we need is whether a transport close has been requested on
it; the Python attribute holding it stays truthy either way. -/
structure StreamHandle where
  closed : Bool
deriving DecidableEq

/-- I/O and effect events emitted by the embedded methods, in order. -/
inductive Ev
  /-- StreamWriter.write of raw bytes. -/
  | write (data : Bytes)
  /-- await StreamWriter.drain(). -/
  | drain
  /-- await StreamReader.read(n) returning the given bytes. -/
  | readBytes (n : Int) (result : Bytes)
  /-- Transport close requested (StreamWriter.close()). -/
  | transportClose
  /-- await StreamWriter.wait_closed(). -/
  | waitClosed
  /-- asyncio.open_connection succeeded. -/
  | transportOpen
  /-- An awaited QWriter.write call ran (payload handled by the codec,
  out of scope). -/
  | writerWrite
  /-- An async def was called without await: the coroutine object was
  created with the given message-type tag and then discarded, so its
  body (the actual write) never ran. -/
  | coroutineCreated (tag : Nat)
  /-- The compression kernel was invoked on the given compressed block
  with the given expected uncompressed size. -/
  | uncompressCall (data : Bytes) (expected : Int)
deriving DecidableEq

/-- Modelled from the spec: the MessageType constants of
qpython/qconnection.py (not in src/); byte 1 of the header is the
message kind, 0 = ASYNC, 1 = SYNC, 2 = RESPONSE. -/
def MessageType.ASYNC : Nat := 0

/-- Modelled from the spec: the SYNC message-kind byte. -/
def MessageType.SYNC : Nat := 1

/-- Modelled from the spec: the RESPONSE message-kind byte. -/
def MessageType.RESPONSE : Nat := 2

/-- Connection state: the attributes of QConnection that the embedded
methods read and write.  host mirrors self.host, s_reader/s_writer the
stream handle attributes (None when unset), protocol_version the
negotiated version, and writer_bound/reader_bound whether the
QWriter/QReader instances of lines 93-95 have been constructed. -/
structure Conn where
  host : Option String
  s_reader : Option StreamHandle
  s_writer : Option StreamHandle
  protocol_version : Option Nat
  writer_bound : Bool
  reader_bound : Bool
deriving DecidableEq

/-- Scripted peer behaviour during the handshake: the bytes the peer
returns to the first StreamReader.read(1) and to the read(1) of the
legacy retry (empty list = peer closed the socket without answering). -/
structure HandshakePeer where
  firstResponse : Bytes
  retryResponse : Bytes
deriving DecidableEq

/-- Embeds QConnection._init_socket (qaioconnection.py lines 97-103):
attempts asyncio.open_connection; on success stores fresh reader and
writer handles; on any failure resets both attributes to None and
re-raises.  Whether transport establishment succeeds is the environment
parameter socketOk. -/
def init_socket (st : Conn) (socketOk : Bool) :
    Conn × List Ev × Except PyErr Unit :=
  if socketOk then
    ({ st with s_reader := some ⟨false⟩, s_writer := some ⟨false⟩ },
     [Ev.transportOpen], Except.ok ())
  else
    ({ st with s_reader := none, s_writer := none }, [], Except.error PyErr.osError)

/-- Embeds QConnection.close (qaioconnection.py lines 105-109): if
self._s_writer is truthy, call close() and await wait_closed() on it.
The attribute itself is never reset to None. -/
def close (st : Conn) : Conn × List Ev :=
  match st.s_writer with
  | none => (st, [])
  | some w =>
    ({ st with s_writer := some { w with closed := true } },
     [Ev.transportClose, Ev.waitClosed])

/-- Embeds QConnection.is_connected (qaioconnection.py lines 111-121):
returns True if self._s_writer else False.  An asyncio StreamWriter
object is truthy even after being closed, so this only tests whether
the attribute is set. -/
def is_connected (st : Conn) : Bool :=
  st.s_writer.isSome

/-- Embeds QConnection._initialize (qaioconnection.py lines 123-142),
the IPC handshake: write credentials ++ [MAX_PROTOCOL_VERSION, 0],
drain, read 1 byte.  If exactly one byte arrives, set
self._protocol_version = min(response_byte, MAX_PROTOCOL_VERSION).
Otherwise line 132 executes: await self._s_writer.close().
StreamWriter.close() performs the transport close and returns None, and
awaiting None raises TypeError in Python, so the legacy retry of lines
133-140 is unreachable; we embed the close side effect followed by that
TypeError.  The client maximum version (class constant
MAX_PROTOCOL_VERSION, defined outside src/) is the parameter maxVer and
the encoded credential token is the parameter credentials. -/
def handshake (st : Conn) (peer : HandshakePeer) (maxVer : Nat)
    (credentials : Bytes) : Conn × List Ev × Except PyErr Unit :=
  let evs1 : List Ev :=
    [Ev.write (credentials ++ [maxVer, 0]), Ev.drain,
     Ev.readBytes 1 peer.firstResponse]
  if peer.firstResponse.length ≠ 1 then
    ({ st with s_writer := st.s_writer.map fun w => { w with closed := true } },
     evs1 ++ [Ev.transportClose],
     Except.error (PyErr.typeError "object NoneType can not be used in await expression"))
  else
    ({ st with protocol_version := some (min (peer.firstResponse.headD 0) maxVer) },
     evs1, Except.ok ())

/-- Embeds QConnection.open (qaioconnection.py lines 77-95): a no-op if
self._s_writer is already set; raises QConnectionException when host is
falsy (None or the empty string); otherwise runs _init_socket then
_initialize, and on success constructs the QWriter and QReader bound to
the negotiated protocol version. -/
def openConn (st : Conn) (socketOk : Bool) (peer : HandshakePeer)
    (maxVer : Nat) (credentials : Bytes) :
    Conn × List Ev × Except PyErr Unit :=
  if st.s_writer.isSome then (st, [], Except.ok ())
  else if st.host.getD "" = "" then
    (st, [], Except.error (PyErr.qConnectionException "Host cannot be None"))
  else
    match init_socket st socketOk with
    | (st1, evs1, Except.error e) => (st1, evs1, Except.error e)
    | (st1, evs1, Except.ok _) =>
      match handshake st1 peer maxVer credentials with
      | (st2, evs2, Except.error e) => (st2, evs1 ++ evs2, Except.error e)
      | (st2, evs2, Except.ok _) =>
        ({ st2 with writer_bound := true, reader_bound := true },
         evs1 ++ evs2, Except.ok ())

/-- Embeds QConnection.query (qaioconnection.py lines 144-180), with
parameters modelled by their count: raise QConnectionException when
self._s_writer is unset; raise QWriterException('Too many parameters.')
when parameters is non-empty and longer than 8; otherwise perform one
awaited self._writer.write call (both branches of lines 177-180 write
exactly once, differing only in the codec payload, which is out of
scope). -/
def query (st : Conn) (nparams : Nat) : List Ev × Except PyErr Unit :=
  if st.s_writer.isNone then
    ([], Except.error (PyErr.qConnectionException "Connection is not established."))
  else if nparams ≠ 0 ∧ nparams > 8 then
    ([], Except.error (PyErr.qWriterException "Too many parameters."))
  else
    ([Ev.writerWrite], Except.ok ())

/-- A received protocol message: data payload, message-kind byte, total
declared size, compression-mode byte (qpython QMessage). -/
structure QMessage (α : Type) where
  data : α
  type : Nat
  size : Nat
  compression_mode : Nat
deriving DecidableEq

/-- Embeds the dispatch of QConnection.sendSync (qaioconnection.py
lines 236-243) on the received message: if response.type is RESPONSE,
return response.data.  Otherwise line 242 invokes the coroutine
function self._writer.write(QException(...), tag) WITHOUT await: in
Python this creates a coroutine object carrying the tag (ASYNC when the
unexpected message was ASYNC, RESPONSE otherwise) and immediately
discards it, so the body never runs and no bytes are written to the
peer; we record the discarded coroutine as a coroutineCreated event.
Line 243 then raises QReaderException. -/
def sendSyncDispatch {α : Type} (response : QMessage α) :
    List Ev × Except PyErr α :=
  if response.type = MessageType.RESPONSE then
    ([], Except.ok response.data)
  else
    ([Ev.coroutineCreated
       (if response.type = MessageType.ASYNC then MessageType.ASYNC
        else MessageType.RESPONSE)],
     Except.error (PyErr.qReaderException
       "Received message of type: %s where response was expected"))

/-- Little-endian value of a byte list (least significant byte first). -/
def leValue : Bytes → Nat
  | [] => 0
  | b :: rest => b + 256 * leValue rest

/-- Unsigned value of a byte field in the given endianness. -/
def fieldValue (e : Endianness) (bs : Bytes) : Nat :=
  match e with
  | Endianness.little => leValue bs
  | Endianness.big => leValue bs.reverse

/-- Modelled from the spec: the byte buffer of the base Reader
(qpython/qreader.py, not in src/) that read_header and read_data
operate on: wrapped data, a cursor, and the declared endianness used
for multi-byte fields (spec sections 3 and 6). -/
structure BytesBuffer where
  data : Bytes
  pos : Nat
  endianness : Endianness
deriving DecidableEq

/-- Modelled from the spec: wrap replaces the buffer contents and
resets the cursor, keeping the endianness setting. -/
def BytesBuffer.wrap (b : BytesBuffer) (d : Bytes) : BytesBuffer :=
  { b with data := d, pos := 0 }

/-- Modelled from the spec: get_byte reads one unsigned byte at the
cursor and advances it. -/
def BytesBuffer.get_byte (b : BytesBuffer) : Nat × BytesBuffer :=
  (b.data.getD b.pos 0, { b with pos := b.pos + 1 })

/-- Modelled from the spec: get_uint reads a 4-byte unsigned integer at
the cursor in the buffer's declared endianness. -/
def BytesBuffer.get_uint (b : BytesBuffer) : Nat × BytesBuffer :=
  (fieldValue b.endianness ((b.data.drop b.pos).take 4),
   { b with pos := b.pos + 4 })

/-- Modelled from the spec: get_long reads an 8-byte signed integer at
the cursor in the buffer's declared endianness (two's complement). -/
def BytesBuffer.get_long (b : BytesBuffer) : Int × BytesBuffer :=
  let v := fieldValue b.endianness ((b.data.drop b.pos).take 8)
  ((if v < 2 ^ 63 then (v : Int) else (v : Int) - 2 ^ 64),
   { b with pos := b.pos + 8 })

/-- Model of asyncio StreamReader.read(n) over the scripted bytes still
available on the stream: returns up to n bytes (everything when n < 0)
together with what remains on the stream; an empty result means the
stream is at EOF with nothing buffered. -/
def streamRead (avail : Bytes) (n : Int) : Bytes × Bytes :=
  if n < 0 then (avail, []) else (avail.take n.toNat, avail.drop n.toNat)

/-- Embeds QReader._read_bytes (qaioreader.py lines 76-87): raise
QReaderException when there is no stream; return b'' immediately (no
stream read) when length == 0; otherwise perform one
self._stream.read(length) call and raise QReaderException if it
returned zero bytes.  Only len(data) == 0 is checked: a non-empty
result shorter than the request is returned as-is.  Returns the emitted
events, the bytes remaining on the stream, and the result. -/
def read_bytes (hasStream : Bool) (avail : Bytes) (length : Int) :
    List Ev × Bytes × Except PyErr Bytes :=
  if hasStream = false then
    ([], avail, Except.error (PyErr.qReaderException
      "There is no input data. QReader requires either stream or data chunk"))
  else if length = 0 then
    ([], avail, Except.ok [])
  else
    if (streamRead avail length).1.length = 0 then
      ([Ev.readBytes length (streamRead avail length).1], (streamRead avail length).2,
       Except.error (PyErr.qReaderException "Error while reading data"))
    else
      ([Ev.readBytes length (streamRead avail length).1], (streamRead avail length).2,
       Except.ok (streamRead avail length).1)

/-- Embeds QReader.read_header (qaioreader.py lines 34-49) in the
stream-backed case, applied to the 8 header bytes obtained from
_read_bytes(8): wrap them, set the buffer endianness from the first
byte (little iff it equals 1), then read the message-kind byte, the
compression-mode byte, the size-extension byte and the 4-byte size, and
add size_ext <<< 32 to the size.  Returns the assembled QMessage (data
still unset, modelled as Unit) and the buffer. -/
def read_header (buf : BytesBuffer) (header : Bytes) :
    QMessage Unit × BytesBuffer :=
  let b := buf.wrap header
  let e0 := b.get_byte
  let b1 := { e0.2 with
    endianness := if e0.1 = 1 then Endianness.little else Endianness.big }
  let mt := b1.get_byte
  let mc := mt.2.get_byte
  let mx := mc.2.get_byte
  let ms := mx.2.get_uint
  (⟨(), mt.1, ms.1 + (mx.1 <<< 32), mc.1⟩, ms.2)

/-- Embeds QReader.read_data (qaioreader.py lines 51-74) in the
stream-backed case.  For compression_mode > 0: read a compression
header of 4 bytes (mode 1) or 8 bytes (other modes); the uncompressed
size is -8 plus its unsigned 4-byte (mode 1) or signed 8-byte field;
read message_size - (8 + comprHeaderLen) bytes as the compressed block;
raise QReaderException('Error while data decompression.') when the
uncompressed size is ≤ 0; otherwise invoke the compression kernel
(external per spec section 1, the parameter uk) on the block and the
uncompressed size.  For compression_mode == 0 read message_size - 8
bytes directly.  The base-class call on line 52 (qpython/qreader.py,
not in src/) does not touch the stream or the compression handling
modelled here, and the final value decoding (line 74) is the external
value codec, so the function returns the raw payload bytes. -/
def read_data (uk : Bytes → Int → Bytes) (buf : BytesBuffer)
    (message_size : Int) (compression_mode : Nat) (avail : Bytes) :
    List Ev × Except PyErr Bytes :=
  if compression_mode > 0 then
    let comprHeaderLen : Int := if compression_mode = 1 then 4 else 8
    match read_bytes true avail comprHeaderLen with
    | (evs1, _, Except.error e) => (evs1, Except.error e)
    | (evs1, avail2, Except.ok hdr) =>
      let buf2 := buf.wrap hdr
      let uncompressed_size : Int :=
        -8 + (if compression_mode = 1 then ((buf2.get_uint.1 : Int))
              else buf2.get_long.1)
      match read_bytes true avail2 (message_size - (8 + comprHeaderLen)) with
      | (evs2, _, Except.error e) => (evs1 ++ evs2, Except.error e)
      | (evs2, _, Except.ok compressed_data) =>
        if uncompressed_size ≤ 0 then
          (evs1 ++ evs2,
           Except.error (PyErr.qReaderException "Error while data decompression."))
        else
          (evs1 ++ evs2 ++ [Ev.uncompressCall compressed_data uncompressed_size],
           Except.ok (uk compressed_data uncompressed_size))
  else
    match read_bytes true avail (message_size - 8) with
    | (evs, _, Except.error e) => (evs, Except.error e)
    | (evs, _, Except.ok raw_data) => (evs, Except.ok raw_data)

/-! Helper lemmas about the stream byte acquisition. -/

/-- Requesting zero bytes returns the empty result without touching the
stream. -/
theorem read_bytes_zero_len (avail : Bytes) :
    read_bytes true avail 0 = ([], avail, Except.ok []) := by
  unfold read_bytes
  rw [if_neg (by decide), if_pos rfl]

/-- A non-zero-length request whose stream read yields bytes returns
exactly those bytes. -/
theorem read_bytes_read_ok (avail : Bytes) (n : Int) (hn : n ≠ 0)
    (hne : (streamRead avail n).1 ≠ []) :
    read_bytes true avail n =
      ([Ev.readBytes n (streamRead avail n).1], (streamRead avail n).2,
       Except.ok (streamRead avail n).1) := by
  unfold read_bytes
  rw [if_neg (by decide), if_neg hn,
    if_neg (by simpa [List.length_eq_zero] using hne)]

/-- A non-zero-length request whose stream read yields nothing raises
QReaderException. -/
theorem read_bytes_read_empty (avail : Bytes) (n : Int) (hn : n ≠ 0)
    (he : (streamRead avail n).1 = []) :
    read_bytes true avail n =
      ([Ev.readBytes n (streamRead avail n).1], (streamRead avail n).2,
       Except.error (PyErr.qReaderException "Error while reading data")) := by
  unfold read_bytes
  rw [if_neg (by decide), if_neg hn, if_pos (by simp [he])]

/-- C9 (amended): requesting zero bytes from the stream returns an
empty result immediately with no stream read; requesting n > 0 bytes
fails with QReaderException (the spec's ProtocolError) when the stream
yields no bytes; a non-empty read result — even one shorter than the n
bytes requested — is returned as the complete result without error. -/
theorem read_bytes_acquisition_spec (avail : Bytes) (n : Int) :
    read_bytes true avail 0 = ([], avail, Except.ok []) ∧
    (0 < n → (streamRead avail n).1 = [] →
      read_bytes true avail n =
        ([Ev.readBytes n []], (streamRead avail n).2,
         Except.error (PyErr.qReaderException "Error while reading data"))) ∧
    (0 < n → (streamRead avail n).1 ≠ [] →
      read_bytes true avail n =
        ([Ev.readBytes n (streamRead avail n).1], (streamRead avail n).2,
         Except.ok (streamRead avail n).1)) := by
  refine ⟨read_bytes_zero_len avail, ?_, ?_⟩
  · intro hpos he
    rw [read_bytes_read_empty avail n (by omega) he, he]
  · intro hpos hne
    exact read_bytes_read_ok avail n (by omega) hne

/-- C9 witness: concrete instance of the amended acquisition property. -/
theorem read_bytes_acquisition_spec_witness :
    read_bytes true ([] : Bytes) 1 =
      ([Ev.readBytes 1 []], [],
       Except.error (PyErr.qReaderException "Error while reading data")) :=
  (read_bytes_acquisition_spec [] 1).2.1 (by decide) rfl

/-- C9 counterexample: the claim as stated says the reader does not
silently accept a short read (fewer than n bytes) as a complete result;
but with one byte available and two requested, _read_bytes returns that
single byte as a successful, complete result with no error. -/
theorem read_bytes_short_read_accepted :
    read_bytes true [7] 2 = ([Ev.readBytes 2 [7]], [], Except.ok [7]) := rfl

/-- C7: for every 8-byte header, read_header decodes the endianness as
little-endian exactly when byte 0 equals 1 (big-endian for any other
value) and computes the effective message size as the 4-byte size field
(bytes 4-7, decoded in the declared endianness) plus the size-extension
byte (byte 3) shifted left by 32 bits. -/
theorem read_header_endianness_and_size (buf : BytesBuffer)
    (b0 b1 b2 b3 b4 b5 b6 b7 : Nat) :
    (read_header buf [b0, b1, b2, b3, b4, b5, b6, b7]).2.endianness =
      (if b0 = 1 then Endianness.little else Endianness.big) ∧
    (read_header buf [b0, b1, b2, b3, b4, b5, b6, b7]).1.size =
      fieldValue (if b0 = 1 then Endianness.little else Endianness.big)
        [b4, b5, b6, b7] + b3 <<< 32 ∧
    (read_header buf [b0, b1, b2, b3, b4, b5, b6, b7]).1.type = b1 ∧
    (read_header buf [b0, b1, b2, b3, b4, b5, b6, b7]).1.compression_mode = b2 := by
  refine ⟨?_, ?_, rfl, rfl⟩ <;>
    by_cases h : b0 = 1 <;>
      simp [read_header, BytesBuffer.wrap, BytesBuffer.get_byte,
        BytesBuffer.get_uint, h]

/-- C8: for every compressed message (compression_mode > 0) whose two
stream reads yield data, read_data first reads a compression header of
4 bytes when the mode is 1 and 8 bytes otherwise, takes its unsigned
(mode 1) or signed (other modes) field, then reads exactly
size - 8 - header_len bytes as the compressed block; with the
uncompressed size computed as the field minus 8, it fails with
QReaderException (the spec's ProtocolError) when that size is ≤ 0 and
otherwise invokes the compression kernel, after both reads, on exactly
that block and that size. -/
theorem read_data_compressed_spec (uk : Bytes → Int → Bytes)
    (buf : BytesBuffer) (size : Int) (mode : Nat) (avail : Bytes)
    (hlen : Int) (hdr block : Bytes) (field : Int)
    (hm : 0 < mode)
    (hhlen : hlen = if mode = 1 then 4 else 8)
    (hhdr : hdr = (streamRead avail hlen).1)
    (hne : hdr ≠ [])
    (hfield : field =
      (if mode = 1 then ((BytesBuffer.wrap buf hdr).get_uint.1 : Int)
       else (BytesBuffer.wrap buf hdr).get_long.1))
    (hblock : block =
      (streamRead (streamRead avail hlen).2 (size - (8 + hlen))).1)
    (hbne : block ≠ []) :
    read_data uk buf size mode avail =
      (if field - 8 ≤ 0 then
        ([Ev.readBytes hlen hdr, Ev.readBytes (size - (8 + hlen)) block],
         Except.error
           (PyErr.qReaderException "Error while data decompression."))
      else
        ([Ev.readBytes hlen hdr, Ev.readBytes (size - (8 + hlen)) block,
          Ev.uncompressCall block (field - 8)],
         Except.ok (uk block (field - 8)))) := by
  have hlen0 : hlen ≠ 0 := by
    rw [hhlen]; split <;> norm_num
  have hn2 : size - (8 + hlen) ≠ 0 := by
    intro h0
    rw [h0] at hblock
    simp [streamRead] at hblock
    exact hbne hblock
  have h1 := read_bytes_read_ok avail hlen hlen0 (hhdr ▸ hne)
  have h2 := read_bytes_read_ok (streamRead avail hlen).2 (size - (8 + hlen))
    hn2 (hblock ▸ hbne)
  have hsub : -8 + field = field - 8 := by ring
  unfold read_data
  rw [if_pos hm, ← hhlen]
  simp only [h1, h2, ← hhdr, ← hblock, ← hfield, hsub, List.cons_append,
    List.nil_append, List.singleton_append, List.append_assoc]

/-- C8 witness: a mode-1 message of declared size 13 whose 4-byte
length field is 12 reads a 1-byte compressed block and hands it to the
kernel with uncompressed size 4. -/
theorem read_data_compressed_spec_witness :
    read_data (fun _ _ => [0]) ⟨[], 0, Endianness.little⟩ 13 1
        [12, 0, 0, 0, 99] =
      ([Ev.readBytes 4 [12, 0, 0, 0], Ev.readBytes 1 [99],
        Ev.uncompressCall [99] 4], Except.ok [0]) := by
  have h := read_data_compressed_spec (fun _ _ => [0])
    ⟨[], 0, Endianness.little⟩ 13 1 [12, 0, 0, 0, 99] 4 [12, 0, 0, 0] [99] 12
    (by decide) rfl rfl (by decide) rfl rfl (by decide)
  simpa using h

/-- C1: for every handshake in which the peer returns exactly one byte
to the first credential frame (credentials ++ [max version, 0]), open()
succeeds and the negotiated protocol_version equals
min(response_byte, client_max_version). -/
theorem open_first_response_negotiates_min (st : Conn) (hst : String)
    (b : Nat) (peer : HandshakePeer) (maxVer : Nat) (credentials : Bytes)
    (hw : st.s_writer = none) (hh : st.host = some hst) (hne : hst ≠ "")
    (hp : peer.firstResponse = [b]) :
    (openConn st true peer maxVer credentials).2.2 = Except.ok () ∧
    (openConn st true peer maxVer credentials).1.protocol_version =
      some (min b maxVer) := by
  simp [openConn, init_socket, handshake, hw, hh, hne, hp]

/-- C1 witness: a peer answering 3 to an offer of 6 negotiates
version min 3 6. -/
theorem open_first_response_negotiates_min_witness :
    (openConn ⟨some "localhost", none, none, none, false, false⟩ true
        ⟨[3], []⟩ 6 [58]).2.2 = Except.ok () ∧
    (openConn ⟨some "localhost", none, none, none, false, false⟩ true
        ⟨[3], []⟩ 6 [58]).1.protocol_version = some (min 3 6) :=
  open_first_response_negotiates_min
    ⟨some "localhost", none, none, none, false, false⟩ "localhost" 3
    ⟨[3], []⟩ 6 [58] rfl rfl (by decide) rfl

/-- C2 (code bug): with a peer returning zero bytes to the first
credential frame and one byte to the legacy retry, the claim says
open() succeeds via the fallback; instead the code raises TypeError at
line 132 (await of the None returned by StreamWriter.close()), and the
event trace shows the legacy frame credentials ++ [0] is never written
and no second read happens. -/
theorem open_zero_byte_fallback_raises_typeerror :
    (openConn ⟨some "localhost", none, none, none, false, false⟩ true
        ⟨[], [5]⟩ 6 [58]).2.2 =
      Except.error (PyErr.typeError
        "object NoneType can not be used in await expression") ∧
    (openConn ⟨some "localhost", none, none, none, false, false⟩ true
        ⟨[], [5]⟩ 6 [58]).2.1 =
      [Ev.transportOpen, Ev.write [58, 6, 0], Ev.drain, Ev.readBytes 1 [],
       Ev.transportClose] :=
  ⟨rfl, rfl⟩

/-- C3 (code bug): with a peer returning zero bytes on both attempts,
the claim says open() fails with AuthenticationError and is_connected()
is false afterward; instead the code raises TypeError at line 132
before reaching the retry, and since neither that path nor close() ever
resets self._s_writer to None, is_connected() still returns true on the
resulting state. -/
theorem open_double_zero_byte_failure_behavior :
    (openConn ⟨some "localhost", none, none, none, false, false⟩ true
        ⟨[], []⟩ 6 [58]).2.2 =
      Except.error (PyErr.typeError
        "object NoneType can not be used in await expression") ∧
    is_connected (openConn ⟨some "localhost", none, none, none, false, false⟩
        true ⟨[], []⟩ 6 [58]).1 = true :=
  ⟨rfl, rfl⟩

/-- C4 (code bug): the claim says close() clears the stream handle so
that is_connected() returns false and subsequent close() calls are
no-ops; instead close() never resets self._s_writer, so after closing
an open connection is_connected() still returns true and a second
close() again performs the close/wait_closed calls rather than being a
no-op. -/
theorem close_leaves_is_connected_true :
    is_connected (close ⟨some "h", some ⟨false⟩, some ⟨false⟩, some 3,
        true, true⟩).1 = true ∧
    (close ⟨some "h", some ⟨false⟩, some ⟨false⟩, some 3, true, true⟩).1.s_writer
      = some ⟨true⟩ ∧
    (close (close ⟨some "h", some ⟨false⟩, some ⟨false⟩, some 3,
        true, true⟩).1).2 = [Ev.transportClose, Ev.waitClosed] :=
  ⟨rfl, rfl, rfl⟩

/-- C5: query fails with QConnectionException (the spec's
ConnectionError) when the connection is not open, and with
QWriterException (the spec's ProtocolError) when more than 8 positional
parameters are supplied — in both cases with an empty event trace, so
before any bytes are written; with the connection open and at most 8
parameters both checks pass and the writer call runs. -/
theorem query_guards (st : Conn) (n : Nat) :
    (st.s_writer = none →
      query st n =
        ([], Except.error
          (PyErr.qConnectionException "Connection is not established."))) ∧
    (st.s_writer ≠ none → 8 < n →
      query st n =
        ([], Except.error (PyErr.qWriterException "Too many parameters."))) ∧
    (st.s_writer ≠ none → n ≤ 8 →
      query st n = ([Ev.writerWrite], Except.ok ())) := by
  refine ⟨?_, ?_, ?_⟩
  · intro hw
    simp [query, hw]
  · intro hw h8
    simp [query, Option.isNone_iff_eq_none, hw, h8]
    omega
  · intro hw h8
    simp [query, Option.isNone_iff_eq_none, hw]
    omega

/-- C5 witness: a 9-parameter call on an open connection fails with
QWriterException and writes nothing. -/
theorem query_guards_witness :
    query ⟨some "h", some ⟨false⟩, some ⟨false⟩, some 3, true, true⟩ 9 =
      ([], Except.error (PyErr.qWriterException "Too many parameters.")) :=
  (query_guards ⟨some "h", some ⟨false⟩, some ⟨false⟩, some 3, true, true⟩ 9).2.1
    (by decide) (by decide)

/-- C6 (code bug): when the received message kind is RESPONSE its data
is returned, and on an unexpected kind the code picks the claimed tag
(ASYNC for an ASYNC message, RESPONSE otherwise) and raises
QReaderException — but the notification call self._writer.write(...) on
line 242 is an async def invoked without await, so only a discarded
coroutine object is created and no write to the peer ever happens: the
traces below contain no write event. -/
theorem sendSync_unexpected_kind_behavior :
    sendSyncDispatch (⟨42, MessageType.RESPONSE, 13, 0⟩ : QMessage Nat) =
      ([], Except.ok 42) ∧
    sendSyncDispatch (⟨0, MessageType.SYNC, 13, 0⟩ : QMessage Nat) =
      ([Ev.coroutineCreated MessageType.RESPONSE],
       Except.error (PyErr.qReaderException
         "Received message of type: %s where response was expected")) ∧
    sendSyncDispatch (⟨0, MessageType.ASYNC, 13, 0⟩ : QMessage Nat) =
      ([Ev.coroutineCreated MessageType.ASYNC],
       Except.error (PyErr.qReaderException
         "Received message of type: %s where response was expected")) ∧
    Ev.writerWrite ∉ (sendSyncDispatch
      (⟨0, MessageType.SYNC, 13, 0⟩ : QMessage Nat)).1 :=
  ⟨rfl, rfl, rfl, by decide⟩

/-- C10: when transport establishment during open() fails, both stream
handle attributes are reset to None before the error propagates, and
is_connected() returns false afterward. -/
theorem open_socket_failure_resets_handles (st : Conn) (hst : String)
    (peer : HandshakePeer) (maxVer : Nat) (credentials : Bytes)
    (hw : st.s_writer = none) (hh : st.host = some hst) (hne : hst ≠ "") :
    (openConn st false peer maxVer credentials).2.2 =
      Except.error PyErr.osError ∧
    (openConn st false peer maxVer credentials).1.s_writer = none ∧
    (openConn st false peer maxVer credentials).1.s_reader = none ∧
    is_connected (openConn st false peer maxVer credentials).1 = false := by
  simp [openConn, init_socket, is_connected, hw, hh, hne]

/-- C10 witness: a concrete failed connection attempt leaves the
handles cleared and the connection reported as not connected. -/
theorem open_socket_failure_resets_handles_witness :
    (openConn ⟨some "localhost", none, none, none, false, false⟩ false
        ⟨[3], []⟩ 6 [58]).2.2 = Except.error PyErr.osError ∧
    (openConn ⟨some "localhost", none, none, none, false, false⟩ false
        ⟨[3], []⟩ 6 [58]).1.s_writer = none ∧
    (openConn ⟨some "localhost", none, none, none, false, false⟩ false
        ⟨[3], []⟩ 6 [58]).1.s_reader = none ∧
    is_connected (openConn ⟨some "localhost", none, none, none, false, false⟩
        false ⟨[3], []⟩ 6 [58]).1 = false :=
  open_socket_failure_resets_handles
    ⟨some "localhost", none, none, none, false, false⟩ "localhost"
    ⟨[3], []⟩ 6 [58] rfl rfl (by decide)

end QPython
